import Mathlib

/-!
Verification development for the Tesla Supercharger profitability repository.

The Python sources are embedded shallowly:

* Python `float` arithmetic is modelled as exact rational arithmetic (`ℚ`),
  matching the specification's view of monetary amounts as abstract decimals
  with no rounding until presentation.
* Python's `float('inf')` payback sentinel is modelled by the inductive type
  `PaybackPeriod`, whose `never` constructor is distinct from every
  `finite` value by construction.
* The dictionaries returned by the calculator methods become structures whose
  field names are the dictionary keys.
* The pandas `DataFrame` held by `MarketAnalyzer` becomes a list of rows; each
  row carries its original position (`idx`, the DataFrame index), the raw
  columns, the derived metric columns computed at construction, and the
  `region` column (absent, i.e. `none`, until `get_regional_analysis`
  assigns it).  `DataFrame.nlargest`/`nsmallest` with the default
  `keep='first'` order rows by the key and break ties by original position,
  which is modelled by a stable insertion sort on a lexicographic relation
  (key first, original index second).
* Methods are modelled as functions from the analyzer state; methods that can
  assign to the stored frame also return the updated state.
-/

/-- Payback period of an investment: either a finite number of years or the
"never recoverable" sentinel (Python's `float('inf')`). -/
inductive PaybackPeriod where
  | finite (years : ℚ)
  | never
deriving DecidableEq

/-! ## calculator.py — SuperchargerProfitabilityCalculator -/

/-- Parameters of `SuperchargerProfitabilityCalculator.__init__` (calculator.py). -/
structure SuperchargerProfitabilityCalculator where
  num_stalls : ℚ
  equipment_cost_per_stall : ℚ
  installation_cost : ℚ
  permitting_fees : ℚ
  land_lease_annual : ℚ
  electricity_rate_kwh : ℚ
  maintenance_annual : ℚ
  charging_price_kwh : ℚ
  avg_kwh_per_session : ℚ
  sessions_per_stall_per_day : ℚ
  utilization_rate : ℚ
deriving DecidableEq

namespace SuperchargerProfitabilityCalculator

/-- Default argument values of `SuperchargerProfitabilityCalculator.__init__`. -/
def default : SuperchargerProfitabilityCalculator :=
  { num_stalls := 8
    equipment_cost_per_stall := 35000
    installation_cost := 100000
    permitting_fees := 25000
    land_lease_annual := 24000
    electricity_rate_kwh := 0.15
    maintenance_annual := 15000
    charging_price_kwh := 0.35
    avg_kwh_per_session := 50
    sessions_per_stall_per_day := 5
    utilization_rate := 0.70 }

/-- `calculate_initial_investment` (calculator.py line 61). -/
def calculate_initial_investment (c : SuperchargerProfitabilityCalculator) : ℚ :=
  c.num_stalls * c.equipment_cost_per_stall + c.installation_cost + c.permitting_fees

/-- `calculate_annual_revenue` (calculator.py line 66). -/
def calculate_annual_revenue (c : SuperchargerProfitabilityCalculator) : ℚ :=
  let sessions_per_year := c.num_stalls * c.sessions_per_stall_per_day * 365 * c.utilization_rate
  let kwh_per_year := sessions_per_year * c.avg_kwh_per_session
  kwh_per_year * c.charging_price_kwh

/-- `calculate_annual_electricity_cost` (calculator.py line 77). -/
def calculate_annual_electricity_cost (c : SuperchargerProfitabilityCalculator) : ℚ :=
  let sessions_per_year := c.num_stalls * c.sessions_per_stall_per_day * 365 * c.utilization_rate
  let kwh_per_year := sessions_per_year * c.avg_kwh_per_session
  kwh_per_year * c.electricity_rate_kwh

/-- `calculate_annual_operating_costs` (calculator.py line 88). -/
def calculate_annual_operating_costs (c : SuperchargerProfitabilityCalculator) : ℚ :=
  c.calculate_annual_electricity_cost + c.land_lease_annual + c.maintenance_annual

/-- `calculate_annual_profit` (calculator.py line 93). -/
def calculate_annual_profit (c : SuperchargerProfitabilityCalculator) : ℚ :=
  c.calculate_annual_revenue - c.calculate_annual_operating_costs

/-- `calculate_roi` (calculator.py line 99): returns 0 when the initial
investment is exactly 0, otherwise `(annual_profit / initial_investment) * 100`. -/
def calculate_roi (c : SuperchargerProfitabilityCalculator) : ℚ :=
  if c.calculate_initial_investment = 0 then 0
  else c.calculate_annual_profit / c.calculate_initial_investment * 100

/-- `calculate_payback_period` (calculator.py line 107): `float('inf')` when
`annual_profit <= 0`, otherwise `initial_investment / annual_profit`. -/
def calculate_payback_period (c : SuperchargerProfitabilityCalculator) : PaybackPeriod :=
  if c.calculate_annual_profit ≤ 0 then .never
  else .finite (c.calculate_initial_investment / c.calculate_annual_profit)

/-- `calculate_5year_profit` (calculator.py line 115). -/
def calculate_5year_profit (c : SuperchargerProfitabilityCalculator) : ℚ :=
  c.calculate_annual_profit * 5 - c.calculate_initial_investment

end SuperchargerProfitabilityCalculator

/-! ## calculator_enhanced.py — dataclasses -/

/-- Dataclass `InstallationCosts` (calculator_enhanced.py line 14). -/
structure InstallationCosts where
  site_preparation : ℚ
  electrical_infrastructure : ℚ
  concrete_construction : ℚ
  labor_costs : ℚ
  permitting_inspections : ℚ
  environmental_compliance : ℚ
  contingency : ℚ
deriving DecidableEq

/-- Field defaults of `InstallationCosts`. -/
def InstallationCosts.default : InstallationCosts :=
  { site_preparation := 50000
    electrical_infrastructure := 150000
    concrete_construction := 40000
    labor_costs := 80000
    permitting_inspections := 25000
    environmental_compliance := 15000
    contingency := 25000 }

/-- `InstallationCosts.total` (calculator_enhanced.py line 25). -/
def InstallationCosts.total (c : InstallationCosts) : ℚ :=
  c.site_preparation + c.electrical_infrastructure + c.concrete_construction +
    c.labor_costs + c.permitting_inspections + c.environmental_compliance + c.contingency

/-- Dataclass `EquipmentCosts` (calculator_enhanced.py line 37). -/
structure EquipmentCosts where
  num_stalls : ℚ
  charger_unit_cost : ℚ
  transformer_cost : ℚ
  switchgear_cost : ℚ
  cabling_materials : ℚ
  canopy_shelter : ℚ
  signage_lighting : ℚ
  payment_systems : ℚ
  monitoring_systems : ℚ
deriving DecidableEq

/-- Field defaults of `EquipmentCosts`. -/
def EquipmentCosts.default : EquipmentCosts :=
  { num_stalls := 8
    charger_unit_cost := 30000
    transformer_cost := 45000
    switchgear_cost := 35000
    cabling_materials := 25000
    canopy_shelter := 80000
    signage_lighting := 15000
    payment_systems := 12000
    monitoring_systems := 18000 }

/-- `EquipmentCosts.total` (calculator_enhanced.py line 50). -/
def EquipmentCosts.total (c : EquipmentCosts) : ℚ :=
  c.charger_unit_cost * c.num_stalls + c.transformer_cost + c.switchgear_cost +
    c.cabling_materials + c.canopy_shelter + c.signage_lighting +
    c.payment_systems + c.monitoring_systems

/-- Dataclass `LicensingLegalCosts` (calculator_enhanced.py line 63). -/
structure LicensingLegalCosts where
  business_licenses : ℚ
  environmental_permits : ℚ
  legal_fees : ℚ
  insurance_setup : ℚ
  trademark_branding : ℚ
deriving DecidableEq

/-- Field defaults of `LicensingLegalCosts`. -/
def LicensingLegalCosts.default : LicensingLegalCosts :=
  { business_licenses := 5000
    environmental_permits := 8000
    legal_fees := 12000
    insurance_setup := 3000
    trademark_branding := 5000 }

/-- `LicensingLegalCosts.total` (calculator_enhanced.py line 72). -/
def LicensingLegalCosts.total (c : LicensingLegalCosts) : ℚ :=
  c.business_licenses + c.environmental_permits + c.legal_fees +
    c.insurance_setup + c.trademark_branding

/-- Dataclass `AnnualOperatingCosts` (calculator_enhanced.py line 82). -/
structure AnnualOperatingCosts where
  land_lease_rent : ℚ
  property_taxes : ℚ
  business_taxes : ℚ
  insurance_annual : ℚ
  maintenance_contract : ℚ
  cleaning_upkeep : ℚ
  security_monitoring : ℚ
  network_connectivity : ℚ
  software_management_fees : ℚ
  utilities_non_charging : ℚ
  repairs_reserve : ℚ
deriving DecidableEq

/-- Field defaults of `AnnualOperatingCosts`. -/
def AnnualOperatingCosts.default : AnnualOperatingCosts :=
  { land_lease_rent := 36000
    property_taxes := 12000
    business_taxes := 8000
    insurance_annual := 15000
    maintenance_contract := 20000
    cleaning_upkeep := 8000
    security_monitoring := 6000
    network_connectivity := 3600
    software_management_fees := 12000
    utilities_non_charging := 4000
    repairs_reserve := 10000 }

/-- `AnnualOperatingCosts.total_fixed` (calculator_enhanced.py line 97). -/
def AnnualOperatingCosts.total_fixed (c : AnnualOperatingCosts) : ℚ :=
  c.land_lease_rent + c.property_taxes + c.business_taxes + c.insurance_annual +
    c.maintenance_contract + c.cleaning_upkeep + c.security_monitoring +
    c.network_connectivity + c.software_management_fees +
    c.utilities_non_charging + c.repairs_reserve

/-- Dataclass `RevenueParameters` (calculator_enhanced.py line 114). -/
structure RevenueParameters where
  num_stalls : ℚ
  peak_price : ℚ
  standard_price : ℚ
  off_peak_price : ℚ
  peak_usage_percent : ℚ
  standard_usage_percent : ℚ
  off_peak_usage_percent : ℚ
  avg_kwh_per_session : ℚ
  sessions_per_stall_per_day : ℚ
  utilization_rate : ℚ
  idle_fee_per_minute : ℚ
  avg_idle_minutes_per_session : ℚ
  idle_fee_occurrence_rate : ℚ
  membership_monthly_fee : ℚ
  percent_members : ℚ
  member_discount_per_kwh : ℚ
  summer_multiplier : ℚ
  winter_multiplier : ℚ
  spring_fall_multiplier : ℚ
  electricity_rate_peak : ℚ
  electricity_rate_standard : ℚ
  electricity_rate_off_peak : ℚ
  weekday_multiplier : ℚ
  weekend_multiplier : ℚ
deriving DecidableEq

/-- Field defaults of `RevenueParameters`. -/
def RevenueParameters.default : RevenueParameters :=
  { num_stalls := 8
    peak_price := 0.42
    standard_price := 0.35
    off_peak_price := 0.28
    peak_usage_percent := 0.25
    standard_usage_percent := 0.60
    off_peak_usage_percent := 0.15
    avg_kwh_per_session := 50
    sessions_per_stall_per_day := 6
    utilization_rate := 0.70
    idle_fee_per_minute := 0.50
    avg_idle_minutes_per_session := 5
    idle_fee_occurrence_rate := 0.30
    membership_monthly_fee := 9.99
    percent_members := 0.15
    member_discount_per_kwh := 0.05
    summer_multiplier := 1.15
    winter_multiplier := 0.95
    spring_fall_multiplier := 1.00
    electricity_rate_peak := 0.18
    electricity_rate_standard := 0.14
    electricity_rate_off_peak := 0.10
    weekday_multiplier := 1.05
    weekend_multiplier := 0.95 }


/-! ## calculator_enhanced.py — EnhancedSuperchargerCalculator -/

/-- Result of `calculate_total_initial_investment`; fields are the dictionary keys. -/
structure InvestmentBreakdown where
  installation : ℚ
  equipment : ℚ
  licensing_legal : ℚ
  total : ℚ
deriving DecidableEq

/-- Result of `calculate_annual_sessions`; fields are the dictionary keys. -/
structure SessionsBreakdown where
  weekday_sessions : ℚ
  weekend_sessions : ℚ
  total_sessions : ℚ
  peak_sessions : ℚ
  standard_sessions : ℚ
  off_peak_sessions : ℚ
deriving DecidableEq

/-- Result of `calculate_charging_revenue`; fields are the dictionary keys. -/
structure ChargingRevenueBreakdown where
  peak_revenue : ℚ
  standard_revenue : ℚ
  off_peak_revenue : ℚ
  total_charging_revenue : ℚ
  peak_kwh : ℚ
  standard_kwh : ℚ
  off_peak_kwh : ℚ
  total_kwh : ℚ
deriving DecidableEq

/-- Result of `calculate_additional_revenue`; fields are the dictionary keys. -/
structure AdditionalRevenueBreakdown where
  idle_fee_revenue : ℚ
  membership_revenue : ℚ
  total_additional_revenue : ℚ
deriving DecidableEq

/-- Result of `calculate_total_annual_revenue`; fields are the dictionary keys. -/
structure TotalRevenueBreakdown where
  charging_revenue : ℚ
  idle_fees : ℚ
  memberships : ℚ
  total_revenue : ℚ
deriving DecidableEq

/-- Result of `calculate_electricity_costs`; fields are the dictionary keys. -/
structure ElectricityCostBreakdown where
  peak_electricity_cost : ℚ
  standard_electricity_cost : ℚ
  off_peak_electricity_cost : ℚ
  total_electricity_cost : ℚ
deriving DecidableEq

/-- Result of `calculate_total_annual_costs`; fields are the dictionary keys. -/
structure AnnualCostBreakdown where
  electricity_costs : ℚ
  fixed_operating_costs : ℚ
  total_annual_costs : ℚ
deriving DecidableEq

/-- Result of `calculate_roi_metrics`; fields are the dictionary keys.  The
payback field carries the `PaybackPeriod` sentinel type. -/
structure RoiMetrics where
  roi_percentage : ℚ
  payback_period_years : PaybackPeriod
  year_5_cumulative_profit : ℚ
  year_10_cumulative_profit : ℚ
deriving DecidableEq

/-- The five configuration groups held by `EnhancedSuperchargerCalculator.__init__`. -/
structure EnhancedSuperchargerCalculator where
  installation : InstallationCosts
  equipment : EquipmentCosts
  licensing : LicensingLegalCosts
  operating : AnnualOperatingCosts
  revenue : RevenueParameters
deriving DecidableEq

namespace EnhancedSuperchargerCalculator

/-- `EnhancedSuperchargerCalculator()` with every argument left at `None`,
i.e. each group at its dataclass defaults. -/
def default : EnhancedSuperchargerCalculator :=
  { installation := InstallationCosts.default
    equipment := EquipmentCosts.default
    licensing := LicensingLegalCosts.default
    operating := AnnualOperatingCosts.default
    revenue := RevenueParameters.default }

/-- `calculate_total_initial_investment` (calculator_enhanced.py line 175). -/
def calculate_total_initial_investment (e : EnhancedSuperchargerCalculator) :
    InvestmentBreakdown :=
  { installation := e.installation.total
    equipment := e.equipment.total
    licensing_legal := e.licensing.total
    total := e.installation.total + e.equipment.total + e.licensing.total }

/-- `calculate_annual_sessions` (calculator_enhanced.py line 188). -/
def calculate_annual_sessions (e : EnhancedSuperchargerCalculator) : SessionsBreakdown :=
  let total_sessions :=
    e.revenue.num_stalls * e.revenue.sessions_per_stall_per_day * 365 *
      e.revenue.utilization_rate
  let weekday_sessions := total_sessions * (5 / 7) * e.revenue.weekday_multiplier
  let weekend_sessions := total_sessions * (2 / 7) * e.revenue.weekend_multiplier
  let adjusted_total := weekday_sessions + weekend_sessions
  { weekday_sessions := weekday_sessions
    weekend_sessions := weekend_sessions
    total_sessions := adjusted_total
    peak_sessions := adjusted_total * e.revenue.peak_usage_percent
    standard_sessions := adjusted_total * e.revenue.standard_usage_percent
    off_peak_sessions := adjusted_total * e.revenue.off_peak_usage_percent }

/-- Local `peak_kwh` of `calculate_charging_revenue` (calculator_enhanced.py line 216). -/
def peak_kwh (e : EnhancedSuperchargerCalculator) : ℚ :=
  e.calculate_annual_sessions.peak_sessions * e.revenue.avg_kwh_per_session

/-- Local `standard_kwh` of `calculate_charging_revenue` (calculator_enhanced.py line 217). -/
def standard_kwh (e : EnhancedSuperchargerCalculator) : ℚ :=
  e.calculate_annual_sessions.standard_sessions * e.revenue.avg_kwh_per_session

/-- Local `off_peak_kwh` of `calculate_charging_revenue` (calculator_enhanced.py line 218). -/
def off_peak_kwh (e : EnhancedSuperchargerCalculator) : ℚ :=
  e.calculate_annual_sessions.off_peak_sessions * e.revenue.avg_kwh_per_session

/-- Local `member_adjustment` of `calculate_charging_revenue`
(calculator_enhanced.py line 221): the member discount is divided by the
standard price, whichever tier it is later applied to. -/
def member_adjustment (e : EnhancedSuperchargerCalculator) : ℚ :=
  1 - e.revenue.percent_members *
        (e.revenue.member_discount_per_kwh / e.revenue.standard_price)

/-- Local `peak_revenue` (pre-seasonal) of `calculate_charging_revenue`
(calculator_enhanced.py line 224). -/
def peak_revenue (e : EnhancedSuperchargerCalculator) : ℚ :=
  e.peak_kwh * e.revenue.peak_price * e.member_adjustment

/-- Local `standard_revenue` (pre-seasonal) of `calculate_charging_revenue`
(calculator_enhanced.py line 225). -/
def standard_revenue (e : EnhancedSuperchargerCalculator) : ℚ :=
  e.standard_kwh * e.revenue.standard_price * e.member_adjustment

/-- Local `off_peak_revenue` (pre-seasonal) of `calculate_charging_revenue`
(calculator_enhanced.py line 226). -/
def off_peak_revenue (e : EnhancedSuperchargerCalculator) : ℚ :=
  e.off_peak_kwh * e.revenue.off_peak_price * e.member_adjustment

/-- Local `seasonal_avg` of `calculate_charging_revenue`
(calculator_enhanced.py line 229). -/
def seasonal_avg (e : EnhancedSuperchargerCalculator) : ℚ :=
  e.revenue.summer_multiplier * 0.25 + e.revenue.winter_multiplier * 0.25 +
    e.revenue.spring_fall_multiplier * 0.50

/-- `calculate_charging_revenue` (calculator_enhanced.py line 211). -/
def calculate_charging_revenue (e : EnhancedSuperchargerCalculator) :
    ChargingRevenueBreakdown :=
  { peak_revenue := e.peak_revenue * e.seasonal_avg
    standard_revenue := e.standard_revenue * e.seasonal_avg
    off_peak_revenue := e.off_peak_revenue * e.seasonal_avg
    total_charging_revenue :=
      (e.peak_revenue + e.standard_revenue + e.off_peak_revenue) * e.seasonal_avg
    peak_kwh := e.peak_kwh
    standard_kwh := e.standard_kwh
    off_peak_kwh := e.off_peak_kwh
    total_kwh := e.peak_kwh + e.standard_kwh + e.off_peak_kwh }

/-- `calculate_additional_revenue` (calculator_enhanced.py line 246), with the
in-code constant `avg_sessions_per_customer_monthly = 4`. -/
def calculate_additional_revenue (e : EnhancedSuperchargerCalculator) :
    AdditionalRevenueBreakdown :=
  let sessions := e.calculate_annual_sessions
  let idle_sessions := sessions.total_sessions * e.revenue.idle_fee_occurrence_rate
  let idle_revenue :=
    idle_sessions * e.revenue.avg_idle_minutes_per_session * e.revenue.idle_fee_per_minute
  let avg_sessions_per_customer_monthly : ℚ := 4
  let unique_customers := sessions.total_sessions / 12 / avg_sessions_per_customer_monthly
  let members := unique_customers * e.revenue.percent_members
  let membership_revenue := members * e.revenue.membership_monthly_fee * 12
  { idle_fee_revenue := idle_revenue
    membership_revenue := membership_revenue
    total_additional_revenue := idle_revenue + membership_revenue }

/-- `calculate_total_annual_revenue` (calculator_enhanced.py line 271). -/
def calculate_total_annual_revenue (e : EnhancedSuperchargerCalculator) :
    TotalRevenueBreakdown :=
  let charging_rev := e.calculate_charging_revenue
  let additional_rev := e.calculate_additional_revenue
  { charging_revenue := charging_rev.total_charging_revenue
    idle_fees := additional_rev.idle_fee_revenue
    memberships := additional_rev.membership_revenue
    total_revenue :=
      charging_rev.total_charging_revenue + additional_rev.total_additional_revenue }

/-- `calculate_electricity_costs` (calculator_enhanced.py line 286). -/
def calculate_electricity_costs (e : EnhancedSuperchargerCalculator) :
    ElectricityCostBreakdown :=
  let charging_data := e.calculate_charging_revenue
  let peak_cost := charging_data.peak_kwh * e.revenue.electricity_rate_peak
  let standard_cost := charging_data.standard_kwh * e.revenue.electricity_rate_standard
  let off_peak_cost := charging_data.off_peak_kwh * e.revenue.electricity_rate_off_peak
  { peak_electricity_cost := peak_cost
    standard_electricity_cost := standard_cost
    off_peak_electricity_cost := off_peak_cost
    total_electricity_cost := peak_cost + standard_cost + off_peak_cost }

/-- `calculate_total_annual_costs` (calculator_enhanced.py line 301). -/
def calculate_total_annual_costs (e : EnhancedSuperchargerCalculator) :
    AnnualCostBreakdown :=
  let electricity := e.calculate_electricity_costs
  let fixed_costs := e.operating.total_fixed
  { electricity_costs := electricity.total_electricity_cost
    fixed_operating_costs := fixed_costs
    total_annual_costs := electricity.total_electricity_cost + fixed_costs }

/-- `calculate_annual_profit` (calculator_enhanced.py line 312). -/
def calculate_annual_profit (e : EnhancedSuperchargerCalculator) : ℚ :=
  e.calculate_total_annual_revenue.total_revenue -
    e.calculate_total_annual_costs.total_annual_costs

/-- `calculate_roi_metrics` (calculator_enhanced.py line 318): the ROI branch
tests `initial_investment > 0` and the payback branch tests `annual_profit > 0`. -/
def calculate_roi_metrics (e : EnhancedSuperchargerCalculator) : RoiMetrics :=
  let initial_investment := e.calculate_total_initial_investment.total
  let annual_profit := e.calculate_annual_profit
  { roi_percentage :=
      if 0 < initial_investment then annual_profit / initial_investment * 100 else 0
    payback_period_years :=
      if 0 < annual_profit then .finite (initial_investment / annual_profit) else .never
    year_5_cumulative_profit := annual_profit * 5 - initial_investment
    year_10_cumulative_profit := annual_profit * 10 - initial_investment }

end EnhancedSuperchargerCalculator

/-! ## market_analysis.py — static dataset and MarketAnalyzer -/

/-- One tuple of `US_METRO_AREAS` (market_analysis.py line 14):
name, state, lat, lon, population, existing chargers. -/
structure MetroArea where
  city : String
  state : String
  lat : ℚ
  lon : ℚ
  population : ℚ
  chargers : ℚ
deriving DecidableEq

/-- The static `US_METRO_AREAS` table (market_analysis.py lines 14-78). -/
def US_METRO_AREAS : List MetroArea :=
  [⟨"New York", "NY", 40.7128, -74.0060, 8336817, 45⟩,
   ⟨"Los Angeles", "CA", 34.0522, -118.2437, 3898747, 52⟩,
   ⟨"Chicago", "IL", 41.8781, -87.6298, 2746388, 28⟩,
   ⟨"Houston", "TX", 29.7604, -95.3698, 2304580, 25⟩,
   ⟨"Phoenix", "AZ", 33.4484, -112.0740, 1608139, 18⟩,
   ⟨"Philadelphia", "PA", 39.9526, -75.1652, 1603797, 15⟩,
   ⟨"San Antonio", "TX", 29.4241, -98.4936, 1434625, 12⟩,
   ⟨"San Diego", "CA", 32.7157, -117.1611, 1386932, 22⟩,
   ⟨"Dallas", "TX", 32.7767, -96.7970, 1304379, 24⟩,
   ⟨"San Jose", "CA", 37.3382, -121.8863, 1013240, 28⟩,
   ⟨"Austin", "TX", 30.2672, -97.7431, 961855, 16⟩,
   ⟨"Jacksonville", "FL", 30.3322, -81.6557, 949611, 8⟩,
   ⟨"Fort Worth", "TX", 32.7555, -97.3308, 918915, 10⟩,
   ⟨"Columbus", "OH", 39.9612, -82.9988, 905748, 9⟩,
   ⟨"Charlotte", "NC", 35.2271, -80.8431, 897720, 11⟩,
   ⟨"San Francisco", "CA", 37.7749, -122.4194, 873965, 35⟩,
   ⟨"Indianapolis", "IN", 39.7684, -86.1581, 887642, 8⟩,
   ⟨"Seattle", "WA", 47.6062, -122.3321, 749256, 30⟩,
   ⟨"Denver", "CO", 39.7392, -104.9903, 715522, 20⟩,
   ⟨"Washington", "DC", 38.9072, -77.0369, 712816, 25⟩,
   ⟨"Boston", "MA", 42.3601, -71.0589, 675647, 22⟩,
   ⟨"Nashville", "TN", 36.1627, -86.7816, 689447, 10⟩,
   ⟨"Detroit", "MI", 42.3314, -83.0458, 639111, 12⟩,
   ⟨"Oklahoma City", "OK", 35.4676, -97.5164, 687725, 7⟩,
   ⟨"Portland", "OR", 45.5152, -122.6784, 652503, 18⟩,
   ⟨"Las Vegas", "NV", 36.1699, -115.1398, 656274, 15⟩,
   ⟨"Memphis", "TN", 35.1495, -90.0490, 633104, 6⟩,
   ⟨"Louisville", "KY", 38.2527, -85.7585, 633045, 5⟩,
   ⟨"Baltimore", "MD", 39.2904, -76.6122, 585708, 10⟩,
   ⟨"Milwaukee", "WI", 43.0389, -87.9065, 577222, 8⟩,
   ⟨"Albuquerque", "NM", 35.0844, -106.6504, 564559, 9⟩,
   ⟨"Tucson", "AZ", 32.2226, -110.9747, 548073, 8⟩,
   ⟨"Fresno", "CA", 36.7378, -119.7871, 542107, 6⟩,
   ⟨"Sacramento", "CA", 38.5816, -121.4944, 524943, 14⟩,
   ⟨"Kansas City", "MO", 39.0997, -94.5786, 508090, 9⟩,
   ⟨"Atlanta", "GA", 33.7490, -84.3880, 498715, 20⟩,
   ⟨"Miami", "FL", 25.7617, -80.1918, 449514, 18⟩,
   ⟨"Raleigh", "NC", 35.7796, -78.6382, 474069, 8⟩,
   ⟨"Omaha", "NE", 41.2565, -95.9345, 486051, 5⟩,
   ⟨"Colorado Springs", "CO", 38.8339, -104.8214, 478961, 7⟩,
   ⟨"Minneapolis", "MN", 44.9778, -93.2650, 425403, 15⟩,
   ⟨"Tampa", "FL", 27.9506, -82.4572, 398173, 12⟩,
   ⟨"Orlando", "FL", 28.5383, -81.3792, 307573, 14⟩,
   ⟨"Cleveland", "OH", 41.4993, -81.6944, 372624, 7⟩,
   ⟨"Boise", "ID", 43.6150, -116.2023, 235684, 6⟩,
   ⟨"Salt Lake City", "UT", 40.7608, -111.8910, 200567, 12⟩,
   ⟨"Buffalo", "NY", 42.8864, -78.8784, 276807, 5⟩,
   ⟨"Pittsburgh", "PA", 40.4406, -79.9959, 302971, 8⟩,
   ⟨"Cincinnati", "OH", 39.1031, -84.5120, 309317, 7⟩,
   ⟨"Anchorage", "AK", 61.2181, -149.9003, 291247, 3⟩,
   ⟨"St. Louis", "MO", 38.6270, -90.1994, 301578, 10⟩,
   ⟨"Madison", "WI", 43.0731, -89.4012, 269840, 5⟩,
   ⟨"Des Moines", "IA", 41.6005, -93.6091, 214133, 4⟩,
   ⟨"Richmond", "VA", 37.5407, -77.4360, 230436, 6⟩,
   ⟨"Charleston", "SC", 32.7765, -79.9311, 150227, 4⟩,
   ⟨"Birmingham", "AL", 33.5186, -86.8104, 200733, 5⟩,
   ⟨"New Orleans", "LA", 29.9511, -90.0715, 383997, 6⟩,
   ⟨"Little Rock", "AR", 34.7465, -92.2896, 202591, 3⟩,
   ⟨"Spokane", "WA", 47.6588, -117.4260, 228989, 5⟩,
   ⟨"Fargo", "ND", 46.8772, -96.7898, 125990, 2⟩,
   ⟨"Sioux Falls", "SD", 43.5460, -96.7313, 192517, 3⟩]

/-- One row of the analyzer's DataFrame after `_calculate_metrics`: the raw
columns, the derived metric columns, the DataFrame index `idx` (original
dataset position), and the `region` column, which is absent (`none`) until
`get_regional_analysis` assigns it. -/
structure MarketRow where
  idx : ℕ
  city : String
  state : String
  lat : ℚ
  lon : ℚ
  population : ℚ
  chargers : ℚ
  people_per_charger : ℚ
  chargers_per_100k : ℚ
  market_size_score : ℚ
  coverage_gap : ℚ
  opportunity_score : ℚ
  region : Option String
deriving DecidableEq, Inhabited

/-- Derived-column computation of `MarketAnalyzer._calculate_metrics`
(market_analysis.py line 95) for one record, given the national average
density `avg` and the dataset's maximum population `maxPop`. -/
def mkMarketRow (avg maxPop : ℚ) (i : ℕ) (m : MetroArea) : MarketRow :=
  let cp100k := m.chargers / m.population * 100000
  let msize := m.population / maxPop * 100
  { idx := i
    city := m.city
    state := m.state
    lat := m.lat
    lon := m.lon
    population := m.population
    chargers := m.chargers
    people_per_charger := m.population / m.chargers
    chargers_per_100k := cp100k
    market_size_score := msize
    coverage_gap := cp100k - avg
    opportunity_score := msize / 100 * (1 / (cp100k / avg)) * 100
    region := none }

/-- The analyzer's only state: the stored DataFrame. -/
structure MarketAnalyzer where
  df : List MarketRow
deriving DecidableEq

namespace MarketAnalyzer

/-- `MarketAnalyzer.__init__` (market_analysis.py line 84): build the frame
from `US_METRO_AREAS` and compute the derived columns. -/
def init : MarketAnalyzer :=
  let total_population := (US_METRO_AREAS.map (fun m => m.population)).sum
  let total_chargers := (US_METRO_AREAS.map (fun m => m.chargers)).sum
  let avg_chargers_per_100k := total_chargers / total_population * 100000
  let maxPop := (US_METRO_AREAS.map (fun m => m.population)).foldl max 0
  ⟨US_METRO_AREAS.enum.map (fun p => mkMarketRow avg_chargers_per_100k maxPop p.1 p.2)⟩

/-- Lexicographic "descending by key, ties by original position" relation
used to model `DataFrame.nlargest(n, key)` with `keep='first'`, which sorts
stably in descending key order. -/
def keyLexDesc (f : MarketRow → ℚ) (a b : MarketRow) : Prop :=
  f b < f a ∨ (f a = f b ∧ a.idx ≤ b.idx)

/-- Lexicographic "ascending by key, ties by original position" relation used
to model `DataFrame.nsmallest(n, key)` with `keep='first'`. -/
def keyLexAsc (f : MarketRow → ℚ) (a b : MarketRow) : Prop :=
  f a < f b ∨ (f a = f b ∧ a.idx ≤ b.idx)

instance (f : MarketRow → ℚ) : DecidableRel (keyLexDesc f) := fun a b => by
  unfold keyLexDesc; infer_instance

instance (f : MarketRow → ℚ) : DecidableRel (keyLexAsc f) := fun a b => by
  unfold keyLexAsc; infer_instance

instance (f : MarketRow → ℚ) : IsTotal MarketRow (keyLexDesc f) where
  total a b := by
    unfold keyLexDesc
    rcases lt_trichotomy (f a) (f b) with h | h | h
    · exact Or.inr (Or.inl h)
    · rcases Nat.le_total a.idx b.idx with hle | hle
      · exact Or.inl (Or.inr ⟨h, hle⟩)
      · exact Or.inr (Or.inr ⟨h.symm, hle⟩)
    · exact Or.inl (Or.inl h)

instance (f : MarketRow → ℚ) : IsTrans MarketRow (keyLexDesc f) where
  trans a b c hab hbc := by
    unfold keyLexDesc at *
    rcases hab with h1 | ⟨h1, h1i⟩ <;> rcases hbc with h2 | ⟨h2, h2i⟩
    · exact Or.inl (h2.trans h1)
    · exact Or.inl (h2 ▸ h1)
    · exact Or.inl (h1 ▸ h2)
    · exact Or.inr ⟨h1.trans h2, h1i.trans h2i⟩

instance (f : MarketRow → ℚ) : IsTotal MarketRow (keyLexAsc f) where
  total a b := by
    unfold keyLexAsc
    rcases lt_trichotomy (f a) (f b) with h | h | h
    · exact Or.inl (Or.inl h)
    · rcases Nat.le_total a.idx b.idx with hle | hle
      · exact Or.inl (Or.inr ⟨h, hle⟩)
      · exact Or.inr (Or.inr ⟨h.symm, hle⟩)
    · exact Or.inr (Or.inl h)

instance (f : MarketRow → ℚ) : IsTrans MarketRow (keyLexAsc f) where
  trans a b c hab hbc := by
    unfold keyLexAsc at *
    rcases hab with h1 | ⟨h1, h1i⟩ <;> rcases hbc with h2 | ⟨h2, h2i⟩
    · exact Or.inl (h1.trans h2)
    · exact Or.inl (h2 ▸ h1)
    · exact Or.inl (h1 ▸ h2)
    · exact Or.inr ⟨h1.trans h2, h1i.trans h2i⟩

/-- `get_market_data` (market_analysis.py line 119): returns a copy of the
frame; the state is unchanged. -/
def get_market_data (a : MarketAnalyzer) : List MarketRow × MarketAnalyzer :=
  (a.df, a)

/-- `get_top_opportunities` (market_analysis.py line 123):
`nlargest(n, 'opportunity_score')`.  The Python version also projects a column
subset, which drops no claim-relevant column and reorders nothing. -/
def get_top_opportunities (a : MarketAnalyzer) (n : ℕ) :
    List MarketRow × MarketAnalyzer :=
  ((List.insertionSort (keyLexDesc (fun r => r.opportunity_score)) a.df).take n, a)

/-- `get_oversaturated_markets` (market_analysis.py line 130):
`nlargest(n, 'chargers_per_100k')`. -/
def get_oversaturated_markets (a : MarketAnalyzer) (n : ℕ) :
    List MarketRow × MarketAnalyzer :=
  ((List.insertionSort (keyLexDesc (fun r => r.chargers_per_100k)) a.df).take n, a)

/-- `get_underserved_markets` (market_analysis.py line 137):
`nsmallest(n, 'chargers_per_100k')`. -/
def get_underserved_markets (a : MarketAnalyzer) (n : ℕ) :
    List MarketRow × MarketAnalyzer :=
  ((List.insertionSort (keyLexAsc (fun r => r.chargers_per_100k)) a.df).take n, a)

/-- Result of `get_national_stats`; fields are the dictionary keys. -/
structure NationalStats where
  total_population : ℚ
  total_chargers : ℚ
  avg_chargers_per_100k : ℚ
  avg_people_per_charger : ℚ
  median_people_per_charger : ℚ
  cities_analyzed : ℕ
deriving DecidableEq

/-- pandas `Series.median`: middle element of the sorted values for an odd
count, mean of the two middle elements for an even count. -/
def seriesMedian (l : List ℚ) : ℚ :=
  let s := List.insertionSort (fun x y : ℚ => x ≤ y) l
  if l.length % 2 = 1 then s.getD (l.length / 2) 0
  else (s.getD (l.length / 2 - 1) 0 + s.getD (l.length / 2) 0) / 2

/-- `get_national_stats` (market_analysis.py line 144). -/
def get_national_stats (a : MarketAnalyzer) : NationalStats × MarketAnalyzer :=
  ({ total_population := (a.df.map (fun r => r.population)).sum
     total_chargers := (a.df.map (fun r => r.chargers)).sum
     avg_chargers_per_100k :=
       (a.df.map (fun r => r.chargers)).sum / (a.df.map (fun r => r.population)).sum * 100000
     avg_people_per_charger :=
       (a.df.map (fun r => r.people_per_charger)).sum / (a.df.length : ℚ)
     median_people_per_charger := seriesMedian (a.df.map (fun r => r.people_per_charger))
     cities_analyzed := a.df.length }, a)

/-- `classify_market` (market_analysis.py line 156): filter the frame on the
city/state pair; `"Unknown"` if no row matches, otherwise the band of the
first matching row's `coverage_gap`. -/
def classify_market (a : MarketAnalyzer) (city state : String) :
    String × MarketAnalyzer :=
  match a.df.filter (fun r => r.city == city && r.state == state) with
  | [] => ("Unknown", a)
  | m :: _ =>
    (if m.coverage_gap < -0.5 then "Underserved (High Opportunity)"
     else if 0.5 < m.coverage_gap then "Oversaturated"
     else "Balanced", a)

/-- Local `get_region` of `get_regional_analysis` (market_analysis.py
line 184): first matching region of the fixed state lists, else `"Other"`.
The lists are checked in the dictionary's insertion order. -/
def get_region (state : String) : String :=
  if state ∈ ["NY", "PA", "MA", "MD", "DC"] then "Northeast"
  else if state ∈ ["FL", "GA", "NC", "SC", "TN", "KY", "LA", "AL"] then "Southeast"
  else if state ∈ ["IL", "OH", "MI", "WI", "MN", "MO", "IN", "IA", "ND", "SD", "NE", "KS"] then
    "Midwest"
  else if state ∈ ["TX", "AZ", "NM", "OK", "AR"] then "Southwest"
  else if state ∈ ["CA", "WA", "OR", "NV", "CO", "UT", "ID", "AK"] then "West"
  else "Other"

/-- One row of the regional aggregation table. -/
structure RegionalRow where
  region : String
  population : ℚ
  chargers : ℚ
  cities : ℕ
  chargers_per_100k : ℚ
  people_per_charger : ℚ
deriving DecidableEq

/-- Descending-density relation used for the final
`sort_values('chargers_per_100k', ascending=False)` of the regional table. -/
def regionalDesc (x y : RegionalRow) : Prop :=
  y.chargers_per_100k ≤ x.chargers_per_100k

instance : DecidableRel regionalDesc := fun x y => by
  unfold regionalDesc; infer_instance

/-- `get_regional_analysis` (market_analysis.py line 172).  The method first
assigns `self.df['region']`, MUTATING the stored frame, then aggregates per
region and sorts by density.  The grouping-key order is irrelevant after that
final sort, so groups are enumerated in first-appearance order here. -/
def get_regional_analysis (a : MarketAnalyzer) :
    List RegionalRow × MarketAnalyzer :=
  let df' := a.df.map (fun r => { r with region := some (get_region r.state) })
  let keys := (df'.map (fun r => get_region r.state)).dedup
  let agg := keys.map (fun k =>
    let grp := df'.filter (fun r => r.region == some k)
    let pop := (grp.map (fun r => r.population)).sum
    let ch := (grp.map (fun r => r.chargers)).sum
    { region := k
      population := pop
      chargers := ch
      cities := grp.length
      chargers_per_100k := ch / pop * 100000
      people_per_charger := pop / ch : RegionalRow })
  (List.insertionSort regionalDesc agg, ⟨df'⟩)

end MarketAnalyzer

/-! ## Example configurations used by witnesses and counterexamples -/

/-- Basic calculator with every parameter 0. -/
def zeroBasic : SuperchargerProfitabilityCalculator :=
  ⟨0, 0, 0, 0, 0, 0, 0, 0, 0, 0, 0⟩

/-- Enhanced configuration with every cost and revenue parameter 0 except a
nonzero standard price (so the member-adjustment division is as in the
original program).  Produces zero revenue, zero costs and zero profit. -/
def noRevenueEnhanced : EnhancedSuperchargerCalculator :=
  { installation := ⟨0, 0, 0, 0, 0, 0, 0⟩
    equipment := ⟨0, 0, 0, 0, 0, 0, 0, 0, 0⟩
    licensing := ⟨0, 0, 0, 0, 0⟩
    operating := ⟨0, 0, 0, 0, 0, 0, 0, 0, 0, 0, 0⟩
    revenue :=
      { num_stalls := 0
        peak_price := 0
        standard_price := 0.35
        off_peak_price := 0
        peak_usage_percent := 0
        standard_usage_percent := 0
        off_peak_usage_percent := 0
        avg_kwh_per_session := 0
        sessions_per_stall_per_day := 0
        utilization_rate := 0
        idle_fee_per_minute := 0
        avg_idle_minutes_per_session := 0
        idle_fee_occurrence_rate := 0
        membership_monthly_fee := 0
        percent_members := 0
        member_discount_per_kwh := 0
        summer_multiplier := 0
        winter_multiplier := 0
        spring_fall_multiplier := 0
        electricity_rate_peak := 0
        electricity_rate_standard := 0
        electricity_rate_off_peak := 0
        weekday_multiplier := 0
        weekend_multiplier := 0 } }

/-- `noRevenueEnhanced` with a negative installation line item (negative cost
fields are not rejected by the program) and a small fixed operating cost:
total initial investment -1000, annual profit -500. -/
def negativeInvestmentEnhanced : EnhancedSuperchargerCalculator :=
  { noRevenueEnhanced with
    installation := ⟨-1000, 0, 0, 0, 0, 0, 0⟩
    operating := ⟨0, 0, 0, 0, 0, 0, 0, 0, 0, 0, 500⟩ }

/-! ## Golden evaluation lemmas

Concrete values of the embedded programs on the example configurations,
proved once and reused below.  (`Rat` arithmetic is `@[irreducible]`, so these
are established with `norm_num` after unfolding the definitions.) -/

theorem basic_default_investment_eq :
    SuperchargerProfitabilityCalculator.default.calculate_initial_investment = 405000 := by
  norm_num [SuperchargerProfitabilityCalculator.calculate_initial_investment,
    SuperchargerProfitabilityCalculator.default]

theorem basic_default_profit_eq :
    SuperchargerProfitabilityCalculator.default.calculate_annual_profit = 63200 := by
  norm_num [SuperchargerProfitabilityCalculator.calculate_annual_profit,
    SuperchargerProfitabilityCalculator.calculate_annual_revenue,
    SuperchargerProfitabilityCalculator.calculate_annual_operating_costs,
    SuperchargerProfitabilityCalculator.calculate_annual_electricity_cost,
    SuperchargerProfitabilityCalculator.default]

theorem zeroBasic_investment_eq : zeroBasic.calculate_initial_investment = 0 := by
  norm_num [SuperchargerProfitabilityCalculator.calculate_initial_investment, zeroBasic]

theorem zeroBasic_profit_eq : zeroBasic.calculate_annual_profit = 0 := by
  norm_num [SuperchargerProfitabilityCalculator.calculate_annual_profit,
    SuperchargerProfitabilityCalculator.calculate_annual_revenue,
    SuperchargerProfitabilityCalculator.calculate_annual_operating_costs,
    SuperchargerProfitabilityCalculator.calculate_annual_electricity_cost, zeroBasic]

theorem enhanced_default_investment_eq :
    EnhancedSuperchargerCalculator.default.calculate_total_initial_investment.total =
      888000 := by
  norm_num [EnhancedSuperchargerCalculator.calculate_total_initial_investment,
    InstallationCosts.total, EquipmentCosts.total, LicensingLegalCosts.total,
    EnhancedSuperchargerCalculator.default, InstallationCosts.default,
    EquipmentCosts.default, LicensingLegalCosts.default]

theorem enhanced_default_profit_eq :
    EnhancedSuperchargerCalculator.default.calculate_annual_profit =
      543086737 / 40000 := by
  norm_num [EnhancedSuperchargerCalculator.calculate_annual_profit,
    EnhancedSuperchargerCalculator.calculate_total_annual_revenue,
    EnhancedSuperchargerCalculator.calculate_total_annual_costs,
    EnhancedSuperchargerCalculator.calculate_charging_revenue,
    EnhancedSuperchargerCalculator.calculate_additional_revenue,
    EnhancedSuperchargerCalculator.calculate_electricity_costs,
    EnhancedSuperchargerCalculator.calculate_annual_sessions,
    EnhancedSuperchargerCalculator.peak_kwh,
    EnhancedSuperchargerCalculator.standard_kwh,
    EnhancedSuperchargerCalculator.off_peak_kwh,
    EnhancedSuperchargerCalculator.peak_revenue,
    EnhancedSuperchargerCalculator.standard_revenue,
    EnhancedSuperchargerCalculator.off_peak_revenue,
    EnhancedSuperchargerCalculator.member_adjustment,
    EnhancedSuperchargerCalculator.seasonal_avg,
    AnnualOperatingCosts.total_fixed,
    EnhancedSuperchargerCalculator.default, RevenueParameters.default,
    AnnualOperatingCosts.default]

theorem noRevenueEnhanced_profit_eq : noRevenueEnhanced.calculate_annual_profit = 0 := by
  norm_num [EnhancedSuperchargerCalculator.calculate_annual_profit,
    EnhancedSuperchargerCalculator.calculate_total_annual_revenue,
    EnhancedSuperchargerCalculator.calculate_total_annual_costs,
    EnhancedSuperchargerCalculator.calculate_charging_revenue,
    EnhancedSuperchargerCalculator.calculate_additional_revenue,
    EnhancedSuperchargerCalculator.calculate_electricity_costs,
    EnhancedSuperchargerCalculator.calculate_annual_sessions,
    EnhancedSuperchargerCalculator.peak_kwh,
    EnhancedSuperchargerCalculator.standard_kwh,
    EnhancedSuperchargerCalculator.off_peak_kwh,
    EnhancedSuperchargerCalculator.peak_revenue,
    EnhancedSuperchargerCalculator.standard_revenue,
    EnhancedSuperchargerCalculator.off_peak_revenue,
    EnhancedSuperchargerCalculator.member_adjustment,
    EnhancedSuperchargerCalculator.seasonal_avg,
    AnnualOperatingCosts.total_fixed, noRevenueEnhanced]

theorem negativeInvestmentEnhanced_investment_eq :
    negativeInvestmentEnhanced.calculate_total_initial_investment.total = -1000 := by
  norm_num [EnhancedSuperchargerCalculator.calculate_total_initial_investment,
    InstallationCosts.total, EquipmentCosts.total, LicensingLegalCosts.total,
    negativeInvestmentEnhanced, noRevenueEnhanced]

theorem negativeInvestmentEnhanced_profit_eq :
    negativeInvestmentEnhanced.calculate_annual_profit = -500 := by
  norm_num [EnhancedSuperchargerCalculator.calculate_annual_profit,
    EnhancedSuperchargerCalculator.calculate_total_annual_revenue,
    EnhancedSuperchargerCalculator.calculate_total_annual_costs,
    EnhancedSuperchargerCalculator.calculate_charging_revenue,
    EnhancedSuperchargerCalculator.calculate_additional_revenue,
    EnhancedSuperchargerCalculator.calculate_electricity_costs,
    EnhancedSuperchargerCalculator.calculate_annual_sessions,
    EnhancedSuperchargerCalculator.peak_kwh,
    EnhancedSuperchargerCalculator.standard_kwh,
    EnhancedSuperchargerCalculator.off_peak_kwh,
    EnhancedSuperchargerCalculator.peak_revenue,
    EnhancedSuperchargerCalculator.standard_revenue,
    EnhancedSuperchargerCalculator.off_peak_revenue,
    EnhancedSuperchargerCalculator.member_adjustment,
    EnhancedSuperchargerCalculator.seasonal_avg,
    AnnualOperatingCosts.total_fixed, negativeInvestmentEnhanced, noRevenueEnhanced]

/-! ## Claim theorems -/

/-- C1 (counterexample): with every cost field at its declared default the
installation group's `total()` is $385,000, not the claimed $410,000. -/
theorem C1_installation_default_counterexample :
    InstallationCosts.default.total = 385000 ∧
    InstallationCosts.default.total ≠ 410000 := by
  norm_num [InstallationCosts.total, InstallationCosts.default]

/-- C1 (amended): with all cost fields at their declared defaults (8 stalls,
$30,000 per-stall charger cost), the installation group's `total()` is
$385,000, the licensing group's `total()` is $33,000, the equipment group's
`total()` is `charger_unit_cost × num_stalls` plus the sum of its fixed part
fields, and the total initial investment is the sum of the three group
totals. -/
theorem C1_default_initial_investment :
    InstallationCosts.default.total = 385000 ∧
    LicensingLegalCosts.default.total = 33000 ∧
    EquipmentCosts.default.total =
      EquipmentCosts.default.charger_unit_cost * EquipmentCosts.default.num_stalls +
        (EquipmentCosts.default.transformer_cost + EquipmentCosts.default.switchgear_cost +
          EquipmentCosts.default.cabling_materials + EquipmentCosts.default.canopy_shelter +
          EquipmentCosts.default.signage_lighting + EquipmentCosts.default.payment_systems +
          EquipmentCosts.default.monitoring_systems) ∧
    EnhancedSuperchargerCalculator.default.calculate_total_initial_investment.total =
      InstallationCosts.default.total + EquipmentCosts.default.total +
        LicensingLegalCosts.default.total := by
  refine ⟨?_, ?_, ?_, ?_⟩ <;>
    norm_num [InstallationCosts.total, LicensingLegalCosts.total, EquipmentCosts.total,
      EnhancedSuperchargerCalculator.calculate_total_initial_investment,
      EnhancedSuperchargerCalculator.default, InstallationCosts.default,
      LicensingLegalCosts.default, EquipmentCosts.default]

/-- C2: in both calculators the payback period is
`initial_investment / annual_profit` whenever `annual_profit > 0`, is the
"never recoverable" sentinel whenever `annual_profit ≤ 0`, and the sentinel is
distinct from every finite value. -/
theorem C2_payback_period (c : SuperchargerProfitabilityCalculator)
    (e : EnhancedSuperchargerCalculator) :
    (0 < c.calculate_annual_profit →
      c.calculate_payback_period =
        .finite (c.calculate_initial_investment / c.calculate_annual_profit)) ∧
    (c.calculate_annual_profit ≤ 0 → c.calculate_payback_period = .never) ∧
    (0 < e.calculate_annual_profit →
      e.calculate_roi_metrics.payback_period_years =
        .finite (e.calculate_total_initial_investment.total / e.calculate_annual_profit)) ∧
    (e.calculate_annual_profit ≤ 0 →
      e.calculate_roi_metrics.payback_period_years = .never) ∧
    (∀ q : ℚ, PaybackPeriod.never ≠ PaybackPeriod.finite q) := by
  refine ⟨?_, ?_, ?_, ?_, fun q h => by cases h⟩
  · intro h
    unfold SuperchargerProfitabilityCalculator.calculate_payback_period
    rw [if_neg (not_le.mpr h)]
  · intro h
    unfold SuperchargerProfitabilityCalculator.calculate_payback_period
    rw [if_pos h]
  · intro h
    simp only [EnhancedSuperchargerCalculator.calculate_roi_metrics]
    rw [if_pos h]
  · intro h
    simp only [EnhancedSuperchargerCalculator.calculate_roi_metrics]
    rw [if_neg (not_lt.mpr h)]

/-- C2 (witness): every branch of `C2_payback_period` realised on a concrete
configuration: the basic and enhanced defaults are profitable and get a finite
payback, the zeroed configurations have non-positive profit and get the
`never` sentinel, and the sentinel differs from the finite value 0. -/
theorem C2_payback_period_witness :
    (0 < SuperchargerProfitabilityCalculator.default.calculate_annual_profit ∧
      SuperchargerProfitabilityCalculator.default.calculate_payback_period =
        .finite (SuperchargerProfitabilityCalculator.default.calculate_initial_investment /
          SuperchargerProfitabilityCalculator.default.calculate_annual_profit)) ∧
    (zeroBasic.calculate_annual_profit ≤ 0 ∧
      zeroBasic.calculate_payback_period = .never) ∧
    (0 < EnhancedSuperchargerCalculator.default.calculate_annual_profit ∧
      EnhancedSuperchargerCalculator.default.calculate_roi_metrics.payback_period_years =
        .finite
          (EnhancedSuperchargerCalculator.default.calculate_total_initial_investment.total /
            EnhancedSuperchargerCalculator.default.calculate_annual_profit)) ∧
    (noRevenueEnhanced.calculate_annual_profit ≤ 0 ∧
      noRevenueEnhanced.calculate_roi_metrics.payback_period_years = .never) ∧
    PaybackPeriod.never ≠ PaybackPeriod.finite 0 :=
  ⟨⟨by rw [basic_default_profit_eq]; norm_num,
    (C2_payback_period SuperchargerProfitabilityCalculator.default
      EnhancedSuperchargerCalculator.default).1
      (by rw [basic_default_profit_eq]; norm_num)⟩,
   ⟨by rw [zeroBasic_profit_eq],
    (C2_payback_period zeroBasic EnhancedSuperchargerCalculator.default).2.1
      (by rw [zeroBasic_profit_eq])⟩,
   ⟨by rw [enhanced_default_profit_eq]; norm_num,
    (C2_payback_period SuperchargerProfitabilityCalculator.default
      EnhancedSuperchargerCalculator.default).2.2.1
      (by rw [enhanced_default_profit_eq]; norm_num)⟩,
   ⟨by rw [noRevenueEnhanced_profit_eq],
    (C2_payback_period SuperchargerProfitabilityCalculator.default
      noRevenueEnhanced).2.2.2.1 (by rw [noRevenueEnhanced_profit_eq])⟩,
   (C2_payback_period SuperchargerProfitabilityCalculator.default
      EnhancedSuperchargerCalculator.default).2.2.2.2 0⟩

/-- C3 (counterexample): for the enhanced calculator the claim fails on a
configuration with a strictly negative (hence nonzero) total initial
investment: the program returns an ROI of 0, while
`(annual_profit / initial_investment) × 100` is 50, not 0. -/
theorem C3_roi_counterexample :
    negativeInvestmentEnhanced.calculate_total_initial_investment.total ≠ 0 ∧
    negativeInvestmentEnhanced.calculate_roi_metrics.roi_percentage = 0 ∧
    negativeInvestmentEnhanced.calculate_annual_profit /
        negativeInvestmentEnhanced.calculate_total_initial_investment.total * 100 ≠ 0 := by
  refine ⟨?_, ?_, ?_⟩
  · rw [negativeInvestmentEnhanced_investment_eq]; norm_num
  · simp only [EnhancedSuperchargerCalculator.calculate_roi_metrics]
    rw [if_neg]
    rw [negativeInvestmentEnhanced_investment_eq]
    norm_num
  · rw [negativeInvestmentEnhanced_investment_eq, negativeInvestmentEnhanced_profit_eq]
    norm_num

/-- C3 (amended): in the basic calculator `roi_percentage` is
`(annual_profit / initial_investment) × 100` whenever the initial investment
is nonzero and 0 when it is exactly 0; in the enhanced calculator the
zero-ROI branch instead covers every non-positive investment, so the formula
is only guaranteed when the investment is strictly positive.  No error is
raised in either case. -/
theorem C3_roi_percentage (c : SuperchargerProfitabilityCalculator)
    (e : EnhancedSuperchargerCalculator) :
    (c.calculate_initial_investment = 0 → c.calculate_roi = 0) ∧
    (c.calculate_initial_investment ≠ 0 →
      c.calculate_roi =
        c.calculate_annual_profit / c.calculate_initial_investment * 100) ∧
    (0 < e.calculate_total_initial_investment.total →
      e.calculate_roi_metrics.roi_percentage =
        e.calculate_annual_profit / e.calculate_total_initial_investment.total * 100) ∧
    (e.calculate_total_initial_investment.total ≤ 0 →
      e.calculate_roi_metrics.roi_percentage = 0) := by
  refine ⟨?_, ?_, ?_, ?_⟩
  · intro h
    unfold SuperchargerProfitabilityCalculator.calculate_roi
    rw [if_pos h]
  · intro h
    unfold SuperchargerProfitabilityCalculator.calculate_roi
    rw [if_neg h]
  · intro h
    simp only [EnhancedSuperchargerCalculator.calculate_roi_metrics]
    rw [if_pos h]
  · intro h
    simp only [EnhancedSuperchargerCalculator.calculate_roi_metrics]
    rw [if_neg (not_lt.mpr h)]

/-- C3 (witness): every branch of `C3_roi_percentage` realised on a concrete
configuration: the all-zero basic configuration has zero investment and zero
ROI, the default basic and enhanced configurations have positive investment
and get the quotient formula, and the negative-investment enhanced
configuration gets ROI 0. -/
theorem C3_roi_percentage_witness :
    (zeroBasic.calculate_initial_investment = 0 ∧ zeroBasic.calculate_roi = 0) ∧
    (SuperchargerProfitabilityCalculator.default.calculate_initial_investment ≠ 0 ∧
      SuperchargerProfitabilityCalculator.default.calculate_roi =
        SuperchargerProfitabilityCalculator.default.calculate_annual_profit /
          SuperchargerProfitabilityCalculator.default.calculate_initial_investment * 100) ∧
    (0 < EnhancedSuperchargerCalculator.default.calculate_total_initial_investment.total ∧
      EnhancedSuperchargerCalculator.default.calculate_roi_metrics.roi_percentage =
        EnhancedSuperchargerCalculator.default.calculate_annual_profit /
          EnhancedSuperchargerCalculator.default.calculate_total_initial_investment.total *
            100) ∧
    (negativeInvestmentEnhanced.calculate_total_initial_investment.total ≤ 0 ∧
      negativeInvestmentEnhanced.calculate_roi_metrics.roi_percentage = 0) :=
  ⟨⟨zeroBasic_investment_eq,
    (C3_roi_percentage zeroBasic EnhancedSuperchargerCalculator.default).1
      zeroBasic_investment_eq⟩,
   ⟨by rw [basic_default_investment_eq]; norm_num,
    (C3_roi_percentage SuperchargerProfitabilityCalculator.default
      EnhancedSuperchargerCalculator.default).2.1
      (by rw [basic_default_investment_eq]; norm_num)⟩,
   ⟨by rw [enhanced_default_investment_eq]; norm_num,
    (C3_roi_percentage SuperchargerProfitabilityCalculator.default
      EnhancedSuperchargerCalculator.default).2.2.1
      (by rw [enhanced_default_investment_eq]; norm_num)⟩,
   ⟨by rw [negativeInvestmentEnhanced_investment_eq]; norm_num,
    (C3_roi_percentage SuperchargerProfitabilityCalculator.default
      negativeInvestmentEnhanced).2.2.2
      (by rw [negativeInvestmentEnhanced_investment_eq]; norm_num)⟩⟩

/-- C9: in the enhanced calculator every configuration whose total initial
investment is strictly negative (negative cost fields are not rejected) gets
`roi_percentage = 0`: the zero-ROI branch covers all non-positive
investments, not only an investment of exactly 0. -/
theorem C9_negative_investment_roi (e : EnhancedSuperchargerCalculator)
    (h : e.calculate_total_initial_investment.total < 0) :
    e.calculate_roi_metrics.roi_percentage = 0 := by
  simp only [EnhancedSuperchargerCalculator.calculate_roi_metrics]
  rw [if_neg (not_lt.mpr h.le)]

/-- C9 (witness): the negative-investment enhanced configuration has total
initial investment -1000 < 0 and ROI 0. -/
theorem C9_negative_investment_roi_witness :
    negativeInvestmentEnhanced.calculate_total_initial_investment.total < 0 ∧
    negativeInvestmentEnhanced.calculate_roi_metrics.roi_percentage = 0 :=
  ⟨by rw [negativeInvestmentEnhanced_investment_eq]; norm_num,
   C9_negative_investment_roi negativeInvestmentEnhanced
     (by rw [negativeInvestmentEnhanced_investment_eq]; norm_num)⟩

/-- C10: for every enhanced configuration the charging-revenue record is
internally consistent: `total_charging_revenue` (the seasonal multiplier
applied to the summed pre-seasonal tier revenues) equals the sum of the three
individually seasonally-scaled tier revenues, and `total_kwh` equals the sum
of the three tier kWh figures. -/
theorem C10_charging_revenue_totals (e : EnhancedSuperchargerCalculator) :
    e.calculate_charging_revenue.total_charging_revenue =
      e.calculate_charging_revenue.peak_revenue +
        e.calculate_charging_revenue.standard_revenue +
        e.calculate_charging_revenue.off_peak_revenue ∧
    e.calculate_charging_revenue.total_kwh =
      e.calculate_charging_revenue.peak_kwh +
        e.calculate_charging_revenue.standard_kwh +
        e.calculate_charging_revenue.off_peak_kwh := by
  constructor
  · simp only [EnhancedSuperchargerCalculator.calculate_charging_revenue]
    ring
  · rfl

/-- C4: whenever the three usage-share fractions sum exactly to 1, the peak,
standard and off-peak session counts sum exactly to the adjusted total, and
the adjusted total equals
`baseline × (5/7) × weekday_multiplier + baseline × (2/7) × weekend_multiplier`
with `baseline = stalls × sessions_per_stall_per_day × 365 × utilization_rate`. -/
theorem C4_session_tiers (e : EnhancedSuperchargerCalculator)
    (h : e.revenue.peak_usage_percent + e.revenue.standard_usage_percent +
      e.revenue.off_peak_usage_percent = 1) :
    e.calculate_annual_sessions.peak_sessions +
        e.calculate_annual_sessions.standard_sessions +
        e.calculate_annual_sessions.off_peak_sessions =
      e.calculate_annual_sessions.total_sessions ∧
    e.calculate_annual_sessions.total_sessions =
      e.revenue.num_stalls * e.revenue.sessions_per_stall_per_day * 365 *
          e.revenue.utilization_rate * (5 / 7) * e.revenue.weekday_multiplier +
        e.revenue.num_stalls * e.revenue.sessions_per_stall_per_day * 365 *
          e.revenue.utilization_rate * (2 / 7) * e.revenue.weekend_multiplier := by
  constructor
  · simp only [EnhancedSuperchargerCalculator.calculate_annual_sessions]
    linear_combination
      (e.revenue.num_stalls * e.revenue.sessions_per_stall_per_day * 365 *
          e.revenue.utilization_rate * (5 / 7) * e.revenue.weekday_multiplier +
        e.revenue.num_stalls * e.revenue.sessions_per_stall_per_day * 365 *
          e.revenue.utilization_rate * (2 / 7) * e.revenue.weekend_multiplier) * h
  · rfl

/-- C4 (witness): the default usage shares (0.25, 0.60, 0.15) sum to 1 and
the default tier session counts sum to the adjusted total. -/
theorem C4_session_tiers_witness :
    (EnhancedSuperchargerCalculator.default.revenue.peak_usage_percent +
        EnhancedSuperchargerCalculator.default.revenue.standard_usage_percent +
        EnhancedSuperchargerCalculator.default.revenue.off_peak_usage_percent = 1) ∧
    EnhancedSuperchargerCalculator.default.calculate_annual_sessions.peak_sessions +
        EnhancedSuperchargerCalculator.default.calculate_annual_sessions.standard_sessions +
        EnhancedSuperchargerCalculator.default.calculate_annual_sessions.off_peak_sessions =
      EnhancedSuperchargerCalculator.default.calculate_annual_sessions.total_sessions :=
  ⟨by norm_num [EnhancedSuperchargerCalculator.default, RevenueParameters.default],
   (C4_session_tiers EnhancedSuperchargerCalculator.default
      (by norm_num [EnhancedSuperchargerCalculator.default, RevenueParameters.default])).1⟩

/-- C5: for every enhanced configuration each tier's (pre-seasonal) charging
revenue is that tier's delivered kWh times that tier's price times the single
member-adjustment scalar `1 − member_fraction × (member_discount / standard_price)`,
computed once from the standard price and applied uniformly to all three
tiers; here each side is fully expanded down to the raw configuration
fields. -/
theorem C5_member_adjustment_uniform (e : EnhancedSuperchargerCalculator) :
    e.peak_revenue =
      (e.revenue.num_stalls * e.revenue.sessions_per_stall_per_day * 365 *
            e.revenue.utilization_rate * (5 / 7) * e.revenue.weekday_multiplier +
          e.revenue.num_stalls * e.revenue.sessions_per_stall_per_day * 365 *
            e.revenue.utilization_rate * (2 / 7) * e.revenue.weekend_multiplier) *
        e.revenue.peak_usage_percent * e.revenue.avg_kwh_per_session *
        e.revenue.peak_price *
        (1 - e.revenue.percent_members *
          (e.revenue.member_discount_per_kwh / e.revenue.standard_price)) ∧
    e.standard_revenue =
      (e.revenue.num_stalls * e.revenue.sessions_per_stall_per_day * 365 *
            e.revenue.utilization_rate * (5 / 7) * e.revenue.weekday_multiplier +
          e.revenue.num_stalls * e.revenue.sessions_per_stall_per_day * 365 *
            e.revenue.utilization_rate * (2 / 7) * e.revenue.weekend_multiplier) *
        e.revenue.standard_usage_percent * e.revenue.avg_kwh_per_session *
        e.revenue.standard_price *
        (1 - e.revenue.percent_members *
          (e.revenue.member_discount_per_kwh / e.revenue.standard_price)) ∧
    e.off_peak_revenue =
      (e.revenue.num_stalls * e.revenue.sessions_per_stall_per_day * 365 *
            e.revenue.utilization_rate * (5 / 7) * e.revenue.weekday_multiplier +
          e.revenue.num_stalls * e.revenue.sessions_per_stall_per_day * 365 *
            e.revenue.utilization_rate * (2 / 7) * e.revenue.weekend_multiplier) *
        e.revenue.off_peak_usage_percent * e.revenue.avg_kwh_per_session *
        e.revenue.off_peak_price *
        (1 - e.revenue.percent_members *
          (e.revenue.member_discount_per_kwh / e.revenue.standard_price)) := by
  refine ⟨?_, ?_, ?_⟩ <;>
    simp only [EnhancedSuperchargerCalculator.peak_revenue,
      EnhancedSuperchargerCalculator.standard_revenue,
      EnhancedSuperchargerCalculator.off_peak_revenue,
      EnhancedSuperchargerCalculator.peak_kwh,
      EnhancedSuperchargerCalculator.standard_kwh,
      EnhancedSuperchargerCalculator.off_peak_kwh,
      EnhancedSuperchargerCalculator.member_adjustment,
      EnhancedSuperchargerCalculator.calculate_annual_sessions]

/-- C6 (counterexample): `get_regional_analysis` mutates the stored frame: on
the freshly constructed analyzer the stored table after the call differs from
the table before it (a `region` column has been assigned). -/
theorem C6_regional_analysis_mutates :
    (MarketAnalyzer.init.get_regional_analysis).2 ≠ MarketAnalyzer.init := by
  intro h
  have h2 : ((MarketAnalyzer.init.get_regional_analysis).2).df.map (fun r => r.region) =
      MarketAnalyzer.init.df.map (fun r => r.region) :=
    congrArg (fun a => a.df.map (fun r => r.region)) h
  exact absurd h2 (by decide)

/-- C6 (amended): every query operation except the regional aggregation
leaves the stored dataset unchanged; `get_regional_analysis` assigns the
`region` column of the stored frame but leaves every other column of every
row (raw and derived) unchanged. -/
theorem C6_query_operations_frame (a : MarketAnalyzer) (n : ℕ) (city state : String) :
    (a.get_market_data).2 = a ∧
    (a.get_top_opportunities n).2 = a ∧
    (a.get_oversaturated_markets n).2 = a ∧
    (a.get_underserved_markets n).2 = a ∧
    (a.get_national_stats).2 = a ∧
    (a.classify_market city state).2 = a ∧
    ((a.get_regional_analysis).2).df.map (fun r => { r with region := none }) =
      a.df.map (fun r => { r with region := none }) := by
  refine ⟨rfl, rfl, rfl, rfl, rfl, ?_, ?_⟩
  · unfold MarketAnalyzer.classify_market
    cases a.df.filter (fun r => r.city == city && r.state == state) <;> rfl
  · simp only [MarketAnalyzer.get_regional_analysis]
    rw [List.map_map]
    exact List.map_congr_left fun r _ => rfl

/-- C7: for every `n` not exceeding the dataset size, the sequence returned
by `get_top_opportunities` is monotonically non-increasing in
`opportunity_score`, and rows with equal scores appear in their original
dataset order (strictly increasing original index). -/
theorem C7_top_opportunities_sorted (n : ℕ)
    (_hn : n ≤ MarketAnalyzer.init.df.length) :
    ((MarketAnalyzer.init.get_top_opportunities n).1).Pairwise
      (fun x y => y.opportunity_score ≤ x.opportunity_score ∧
        (x.opportunity_score = y.opportunity_score → x.idx < y.idx)) := by
  have hsorted :
      List.Sorted (MarketAnalyzer.keyLexDesc (fun r => r.opportunity_score))
        (List.insertionSort (MarketAnalyzer.keyLexDesc (fun r => r.opportunity_score))
          MarketAnalyzer.init.df) :=
    List.sorted_insertionSort _ _
  have hperm :=
    List.perm_insertionSort (MarketAnalyzer.keyLexDesc (fun r => r.opportunity_score))
      MarketAnalyzer.init.df
  have hnodup0 : (MarketAnalyzer.init.df.map (fun r => r.idx)).Nodup := by decide
  have hnodup :
      ((List.insertionSort (MarketAnalyzer.keyLexDesc (fun r => r.opportunity_score))
          MarketAnalyzer.init.df).map (fun r => r.idx)).Nodup :=
    ((hperm.map (fun r => r.idx)).nodup_iff).mpr hnodup0
  have hpw_ne :
      (List.insertionSort (MarketAnalyzer.keyLexDesc (fun r => r.opportunity_score))
          MarketAnalyzer.init.df).Pairwise (fun x y => x.idx ≠ y.idx) :=
    List.pairwise_map.mp hnodup
  have hcomb := List.Pairwise.and hsorted hpw_ne
  have himp : ∀ {x y : MarketRow},
      (MarketAnalyzer.keyLexDesc (fun r => r.opportunity_score) x y ∧ x.idx ≠ y.idx) →
      (y.opportunity_score ≤ x.opportunity_score ∧
        (x.opportunity_score = y.opportunity_score → x.idx < y.idx)) := by
    rintro x y ⟨hk | ⟨heq, hle⟩, hne⟩
    · have hk' : y.opportunity_score < x.opportunity_score := hk
      exact ⟨le_of_lt hk', fun he => absurd (he ▸ hk') (lt_irrefl _)⟩
    · have heq' : x.opportunity_score = y.opportunity_score := heq
      exact ⟨heq'.ge, fun _ => lt_of_le_of_ne hle hne⟩
  exact (hcomb.imp himp).sublist
    ((List.insertionSort (MarketAnalyzer.keyLexDesc (fun r => r.opportunity_score))
        MarketAnalyzer.init.df).take_sublist n)

/-- C7 (witness): instantiation at `n = 10`, which does not exceed the 61-row
dataset. -/
theorem C7_top_opportunities_sorted_witness :
    10 ≤ MarketAnalyzer.init.df.length ∧
    ((MarketAnalyzer.init.get_top_opportunities 10).1).Pairwise
      (fun x y => y.opportunity_score ≤ x.opportunity_score ∧
        (x.opportunity_score = y.opportunity_score → x.idx < y.idx)) :=
  ⟨by decide, C7_top_opportunities_sorted 10 (by decide)⟩

/-- C8 (counterexample): for a city/state pair not present in the dataset the
classification returns `"Unknown"`, a fourth value outside the claimed three
bands. -/
theorem C8_classification_counterexample :
    (MarketAnalyzer.init.classify_market "Gotham" "XX").1 = "Unknown" ∧
    ("Unknown" : String) ∉
      ["Underserved (High Opportunity)", "Oversaturated", "Balanced"] := by
  constructor
  · rfl
  · decide

/-- C8 (amended): for every city/state pair that matches at least one record,
the classification is one of exactly three bands, chosen from the first
matching record's coverage gap by the fixed thresholds: below -0.5 it is
`"Underserved (High Opportunity)"`, above 0.5 it is `"Oversaturated"`, and
otherwise `"Balanced"`; pairs matching no record yield `"Unknown"`. -/
theorem C8_classification_bands (city state : String) (m : MarketRow)
    (rest : List MarketRow)
    (h : MarketAnalyzer.init.df.filter
        (fun r => r.city == city && r.state == state) = m :: rest) :
    (MarketAnalyzer.init.classify_market city state).1 =
      if m.coverage_gap < -0.5 then "Underserved (High Opportunity)"
      else if 0.5 < m.coverage_gap then "Oversaturated"
      else "Balanced" := by
  unfold MarketAnalyzer.classify_market
  rw [h]

/-- C8 (witness): the pair ("New York", "NY") matches the first dataset row,
and its classification is given by that row's coverage gap and the fixed
thresholds. -/
theorem C8_classification_bands_witness :
    (MarketAnalyzer.init.classify_market "New York" "NY").1 =
      if MarketAnalyzer.init.df.headI.coverage_gap < -0.5 then
        "Underserved (High Opportunity)"
      else if 0.5 < MarketAnalyzer.init.df.headI.coverage_gap then "Oversaturated"
      else "Balanced" :=
  C8_classification_bands "New York" "NY" MarketAnalyzer.init.df.headI [] (by rfl)
